import Mathlib

/-!
Verification of the originalife-s4 updater (src/main.rs) against its
natural-language specification.

The program is embedded shallowly: bytes are `List Nat` (each entry a value
below 256), the SHA-256 digest is implemented from FIPS 180-4 over `Nat` with
explicit reduction modulo 2 ^ 32, fallible steps return `Except Err`, and the
effectful parts of `main` are modelled as explicit state passing over a
`World` record (cache directory, working directory, destination directory).
-/

/-- Byte strings: each entry is meant to lie below 256 (a Rust `u8`). -/
abbrev Bytes := List Nat

/-- 2 ^ 32, the modulus of 32-bit machine arithmetic. -/
def w32 : Nat := 4294967296

/-- 32-bit wrapping addition. -/
def add32 (a b : Nat) : Nat := (a + b) % w32

/-- 32-bit right rotation by `n` of a value below 2 ^ 32. -/
def rotr32 (n x : Nat) : Nat := (x >>> n) ||| ((x <<< (32 - n)) % w32)

/-- Bitwise complement within 32 bits. -/
def not32 (x : Nat) : Nat := x ^^^ 4294967295

/-- SHA-256 `Ch(x, y, z)`. -/
def sha2ch (x y z : Nat) : Nat := (x &&& y) ^^^ (not32 x &&& z)

/-- SHA-256 `Maj(x, y, z)`. -/
def sha2maj (x y z : Nat) : Nat := (x &&& y) ^^^ (x &&& z) ^^^ (y &&& z)

/-- SHA-256 big sigma 0. -/
def sigmaBig0 (x : Nat) : Nat := rotr32 2 x ^^^ rotr32 13 x ^^^ rotr32 22 x

/-- SHA-256 big sigma 1. -/
def sigmaBig1 (x : Nat) : Nat := rotr32 6 x ^^^ rotr32 11 x ^^^ rotr32 25 x

/-- SHA-256 small sigma 0. -/
def sigmaSm0 (x : Nat) : Nat := rotr32 7 x ^^^ rotr32 18 x ^^^ (x >>> 3)

/-- SHA-256 small sigma 1. -/
def sigmaSm1 (x : Nat) : Nat := rotr32 17 x ^^^ rotr32 19 x ^^^ (x >>> 10)

/-- The 64 SHA-256 round constants of FIPS 180-4, written in decimal. -/
def sha2K : List Nat :=
  [1116352408, 1899447441, 3049323471, 3921009573, 961987163, 1508970993,
   2453635748, 2870763221, 3624381080, 310598401, 607225278, 1426881987,
   1925078388, 2162078206, 2614888103, 3248222580, 3835390401, 4022224774,
   264347078, 604807628, 770255983, 1249150122, 1555081692, 1996064986,
   2554220882, 2821834349, 2952996808, 3210313671, 3336571891, 3584528711,
   113926993, 338241895, 666307205, 773529912, 1294757372, 1396182291,
   1695183700, 1986661051, 2177026350, 2456956037, 2730485921, 2820302411,
   3259730800, 3345764771, 3516065817, 3600352804, 4094571909, 275423344,
   430227734, 506948616, 659060556, 883997877, 958139571, 1322822218,
   1537002063, 1747873779, 1955562222, 2024104815, 2227730452, 2361852424,
   2428436474, 2756734187, 3204031479, 3329325298]

/-- The eight 32-bit words of the SHA-256 working state. -/
structure H8 where
  a : Nat
  b : Nat
  c : Nat
  d : Nat
  e : Nat
  f : Nat
  g : Nat
  h : Nat
  deriving Repr, DecidableEq

/-- The SHA-256 initial hash value of FIPS 180-4, written in decimal. -/
def sha2init : H8 :=
  ⟨1779033703, 3144134277, 1013904242, 2773480762,
   1359893119, 2600822924, 528734635, 1541459225⟩

/-- One SHA-256 compression round with constant `k` and schedule word `w`. -/
def sha2round (s : H8) (k w : Nat) : H8 :=
  let t1 := add32 s.h (add32 (sigmaBig1 s.e) (add32 (sha2ch s.e s.f s.g) (add32 k w)))
  let t2 := add32 (sigmaBig0 s.a) (sha2maj s.a s.b s.c)
  ⟨add32 t1 t2, s.a, s.b, s.c, add32 s.d t1, s.e, s.f, s.g⟩

/-- Big-endian byte decomposition: `n` bytes of `x`, most significant first. -/
def toBytesBE : Nat → Nat → Bytes
  | 0, _ => []
  | n + 1, x => toBytesBE n (x / 256) ++ [x % 256]

/-- Group a byte list into big-endian 32-bit words. -/
def bytesToWords : Bytes → List Nat
  | a :: b :: c :: d :: rest =>
      ((((a % 256) * 256 + b % 256) * 256 + c % 256) * 256 + d % 256) :: bytesToWords rest
  | _ => []

/-- Extend a 16-word message block by `n` further schedule words. -/
def extendSchedule : Nat → List Nat → List Nat
  | 0, ws => ws
  | n + 1, ws =>
      let i := ws.length
      let w := add32 (add32 (sigmaSm1 (ws.getD (i - 2) 0)) (ws.getD (i - 7) 0))
                     (add32 (sigmaSm0 (ws.getD (i - 15) 0)) (ws.getD (i - 16) 0))
      extendSchedule n (ws ++ [w])

/-- Process one 64-byte block against the running hash state. -/
def sha2block (s : H8) (block : Bytes) : H8 :=
  let ws := extendSchedule 48 (bytesToWords block)
  let t := (sha2K.zip ws).foldl (fun st kw => sha2round st kw.1 kw.2) s
  ⟨add32 s.a t.a, add32 s.b t.b, add32 s.c t.c, add32 s.d t.d,
   add32 s.e t.e, add32 s.f t.f, add32 s.g t.g, add32 s.h t.h⟩

/-- SHA-256 message padding: a 0x80 byte, zeros, and the 64-bit message
bit length, bringing the total length to a multiple of 64 bytes. -/
def sha256pad (msg : Bytes) : Bytes :=
  let len := msg.length
  let padZeros := (64 - (len + 9) % 64) % 64
  msg ++ [128] ++ List.replicate padZeros 0 ++ toBytesBE 8 (8 * len)

/-- Split a byte list into 64-byte blocks, with fuel bounding the number of
blocks (structural recursion so that the kernel can evaluate it). -/
def chunks64Go : Nat → Bytes → List Bytes
  | 0, _ => []
  | _, [] => []
  | fuel + 1, l => l.take 64 :: chunks64Go fuel (l.drop 64)

/-- Split a byte list into 64-byte blocks. -/
def chunks64 (l : Bytes) : List Bytes := chunks64Go l.length l

/-- The SHA-256 digest of a message, as its 32 digest bytes. -/
def sha256 (msg : Bytes) : Bytes :=
  let s := (chunks64 (sha256pad msg)).foldl sha2block sha2init
  [s.a, s.b, s.c, s.d, s.e, s.f, s.g, s.h].foldr
    (fun x acc => toBytesBE 4 x ++ acc) []

/-- A nibble as a lowercase hexadecimal character. -/
def hexChar (n : Nat) : Char :=
  if n < 10 then Char.ofNat (48 + n) else Char.ofNat (87 + n)

/-- A byte as two lowercase hexadecimal characters. -/
def byteHex (b : Nat) : List Char := [hexChar (b / 16), hexChar (b % 16)]

/-- A byte list as a lowercase hexadecimal string: the Rust side's
`format` with the `:x` specifier on a SHA-256 digest. -/
def toHexString (bs : Bytes) : String :=
  String.mk (bs.foldr (fun b acc => byteHex b ++ acc) [])

/-- A release asset: name, download URL, declared size (src/main.rs uses the
`octocrab` asset fields `name`, `browser_download_url`, `size`). -/
structure Asset where
  name : String
  url : String
  size : Nat
  deriving Repr, DecidableEq

/-- A release: its list of assets (the tag plays no role in the pipeline). -/
structure Release where
  assets : List Asset
  deriving Repr, DecidableEq

/-- The error outcomes of the program, mirroring the `anyhow` failure points
of src/main.rs. `environmentError v` is a failed `env::var(v)`;
`slicePanic` is the panic of an out-of-bounds string slice; the spec calls
these `EnvironmentError`, `InvalidChoiceError`, `IntegrityError`,
`NetworkError`, `FilesystemError`. -/
inductive Err where
  | integrityError
  | environmentError (v : String)
  | invalidChoiceError
  | networkError
  | filesystemError
  | slicePanic
  deriving Repr, DecidableEq

/-- Lines 98-102 of src/main.rs: the artifact name chosen from the trimmed
user input; any input other than "1" or "2" falls through to the Prism name. -/
def artifact_name (choice : String) : String :=
  if choice = "1" then "updated-pack-modrinth.zip"
  else if choice = "2" then "updated-pack-curseforge.zip"
  else "updated-pack-prism.zip"

/-- Lines 104-107 of src/main.rs: the first asset of the release whose name
equals the expected artifact name. -/
def findAsset (r : Release) (nm : String) : Option Asset :=
  r.assets.find? (fun a => a.name == nm)

/-- Line 111 of src/main.rs, `&asset.name[..64]`: the first 64 bytes of the
asset name. The asset names here are ASCII, so byte indices and character
indices coincide; Rust panics when the string is shorter than 64 bytes,
modelled by `none`. -/
def checksumFromName (nm : String) : Option String :=
  if 64 ≤ nm.length then some (nm.take 64) else none

/-- Lines 33-37 of src/main.rs, `get_cached_file_path`: the file name
`"{sha256}-{artifact_name}"` under the process-wide cache directory (the
cache directory itself is a fixed root, so the key is the file name). -/
def get_cached_file_path (artifactName shaHex : String) : String :=
  shaHex ++ "-" ++ artifactName

/-- Lines 39-71 of src/main.rs, `download_file`, after the transport has
delivered the full body `body`: the SHA-256 digest of the content is
formatted as lowercase hex and compared with the expected checksum; on
mismatch the function bails with the `IntegrityError` message, otherwise it
returns exactly the downloaded bytes. (URL, declared size and the progress
bar are I/O glue with no effect on the returned value.) -/
def download_file (body : Bytes) (shaHex : String) : Except Err Bytes :=
  if toHexString (sha256 body) = shaHex then .ok body
  else .error .integrityError

/-- An entry of a directory listing: a file with its bytes, or a
subdirectory with its own listing. -/
inductive Entry where
  | file (nm : String) (data : Bytes)
  | dir (nm : String) (children : List Entry)
  deriving Repr

/-- The name of a directory entry. -/
def Entry.name : Entry → String
  | .file nm _ => nm
  | .dir nm _ => nm

/-- Whether a directory entry is a subdirectory (`path.is_dir()`). -/
def Entry.isDir : Entry → Bool
  | .file _ _ => false
  | .dir _ _ => true

/-- `fs::remove_dir_all` on the named entry of a directory listing: succeeds
only when the entry exists and is a directory, and deletes it (with its whole
subtree). -/
def remove_dir_all (entries : List Entry) (nm : String) : Except Err (List Entry) :=
  match entries.find? (fun e => e.name == nm) with
  | some (.dir _ _) => .ok (entries.filter (fun e => e.name != nm))
  | _ => .error .filesystemError

/-- `fs::remove_file` on the named entry of a directory listing: succeeds
only when the entry exists and is a file, and deletes it. -/
def remove_file (entries : List Entry) (nm : String) : Except Err (List Entry) :=
  match entries.find? (fun e => e.name == nm) with
  | some (.file _ _) => .ok (entries.filter (fun e => e.name != nm))
  | _ => .error .filesystemError

/-- Lines 13-24 of src/main.rs, `remove_dir_contents`: iterate over the
directory listing snapshot (`fs::read_dir`), removing each entry — whole
subtrees via `remove_dir_all` for directories, `remove_file` for plain
files. `listing` is the snapshot being walked, `current` the evolving
contents of the directory; the directory itself is never removed. -/
def remove_dir_contents (listing : List Entry) (current : List Entry) :
    Except Err (List Entry) :=
  match listing with
  | [] => .ok current
  | e :: rest =>
      match (if e.isDir then remove_dir_all current e.name
             else remove_file current e.name) with
      | .error err => .error err
      | .ok next => remove_dir_contents rest next

/-- The environment variables visible to the process. -/
def Env : Type := String → Option String

/-- Lines 131-142 of src/main.rs: the launcher profile directory built from
environment variables (`+` on Rust `String`s is plain concatenation; the
path fragments are raw strings with literal backslashes). An unset required
variable fails the branch; any choice other than "1", "2", "3" bails with
"Invalid choice". -/
def profileDir (choice : String) (env : Env) : Except Err String :=
  if choice = "1" then
    match env "APPDATA" with
    | some a => .ok (a ++ "\\ModrinthApp\\profiles")
    | none => .error (.environmentError "APPDATA")
  else if choice = "2" then
    match env "HOMEDRIVE" with
    | none => .error (.environmentError "HOMEDRIVE")
    | some hd =>
        match env "HOMEPATH" with
        | none => .error (.environmentError "HOMEPATH")
        | some hp => .ok (hd ++ hp ++ "\\curseforge\\minecraft\\Instances")
  else if choice = "3" then
    match env "APPDATA" with
    | some a => .ok (a ++ "\\PrismLauncher\\instances")
    | none => .error (.environmentError "APPDATA")
  else .error .invalidChoiceError

/-- Line 144 of src/main.rs: the install target is the profile directory
joined with the fixed pack subdirectory (path join on the Windows paths the
program builds inserts a backslash separator). -/
def resolveTarget (choice : String) (env : Env) : Except Err String :=
  match profileDir choice env with
  | .ok p => .ok (p ++ "\\Originalife Season 4")
  | .error e => .error e

/-- Look a file up in a name-to-bytes listing (first match wins, as in a
real directory a name occurs once). -/
def lookupFile (files : List (String × Bytes)) (nm : String) : Option Bytes :=
  (files.find? (fun p => p.1 == nm)).map (fun p => p.2)

/-- `fs::write`: create or overwrite the named file in a listing. -/
def setFile (files : List (String × Bytes)) (nm : String) (data : Bytes) :
    List (String × Bytes) :=
  (nm, data) :: files.filter (fun p => p.1 != nm)

/-- The mutable state the pipeline touches: the cache directory, the current
working directory (where the temporary archive is written), and the resolved
destination directory (whether it exists, and its contents). -/
structure World where
  cache : List (String × Bytes)
  cwd : List (String × Bytes)
  destExists : Bool
  dest : List Entry

/-- An archive, already parsed: the entries `ZipArchive::extract` would
write, as (relative path, bytes) pairs. -/
def Archive : Type := List (String × Bytes)

/-- Lines 113-126 of src/main.rs: the cached/verified fetch. If the cache
file for `(checksum, name)` exists its bytes are returned unchanged and
nothing else happens (in particular the network, modelled as the body the
transport would deliver — `none` when disconnected — is never consulted and
the digest is not recomputed). Otherwise the body is downloaded and
verified by `download_file`, and only a verified body is written to the
cache. Errors leave the world as it was. -/
def fetchStep (shaHex nm : String) (network : Option Bytes) (w : World) :
    Except Err Bytes × World :=
  match lookupFile w.cache (get_cached_file_path nm shaHex) with
  | some content => (.ok content, w)
  | none =>
      match network with
      | none => (.error .networkError, w)
      | some body =>
          match download_file body shaHex with
          | .error e => (.error e, w)
          | .ok content =>
              (.ok content,
               { w with cache := (get_cached_file_path nm shaHex, content) :: w.cache })

/-- Extraction of a parsed archive into a directory listing: every archive
entry is written into the directory. -/
def extractArchive (archive : Archive) (dest : List Entry) : List Entry :=
  dest ++ archive.map (fun p => Entry.file p.1 p.2)

/-- Lines 113-157 of src/main.rs, the pipeline downstream of the checksum
slice, parameterised by the checksum string `shaHex` the slice would have
produced: fetch (cache or verified download), write the temporary archive
file into the working directory, resolve the profile directory, clear an
existing destination (`remove_dir_contents`) or create a missing one
(`fs::create_dir_all`), open the temporary file as a zip (`parse`, `none`
for an invalid archive), extract, and delete the temporary file. Each
failure bails immediately with the world as it stood. -/
def runFromChecksum (choice shaHex : String) (env : Env) (network : Option Bytes)
    (parse : Bytes → Option Archive) (w : World) : Except Err Unit × World :=
  let nm := artifact_name choice
  match fetchStep shaHex nm network w with
  | (.error e, w1) => (.error e, w1)
  | (.ok content, w1) =>
      let w2 := { w1 with cwd := setFile w1.cwd nm content }
      match profileDir choice env with
      | .error e => (.error e, w2)
      | .ok _ =>
          match (if w2.destExists then remove_dir_contents w2.dest w2.dest
                 else .ok ([] : List Entry)) with
          | .error e => (.error e, w2)
          | .ok cleared =>
              let w3 := { w2 with destExists := true, dest := cleared }
              match parse content with
              | none => (.error .filesystemError, w3)
              | some archive =>
                  let w4 := { w3 with dest := extractArchive archive w3.dest }
                  (.ok (), { w4 with cwd := w4.cwd.filter (fun p => p.1 != nm) })

/-- Lines 98-165 of src/main.rs after the user's choice is read: select the
artifact name, look for it among the release's assets — when it is absent
print a message and return `Ok(())` — otherwise slice the expected checksum
out of the asset name (a panic when the name is shorter than 64 bytes) and
run the fetch/install pipeline. -/
def mainModel (r : Release) (choice : String) (env : Env) (network : Option Bytes)
    (parse : Bytes → Option Archive) (w : World) : Except Err Unit × World :=
  match findAsset r (artifact_name choice) with
  | none => (.ok (), w)
  | some asset =>
      match checksumFromName asset.name with
      | none => (.error .slicePanic, w)
      | some shaHex => runFromChecksum choice shaHex env network parse w

/-- A concrete environment with all three variables set, used to instantiate
the resolution theorems on closed inputs. -/
def envFull : Env := fun v =>
  if v = "APPDATA" then some "A"
  else if v = "HOMEDRIVE" then some "C:"
  else if v = "HOMEPATH" then some "\\Users\\u"
  else none

/-- Every artifact name the program can select is shorter than 64 bytes, so
the checksum slice is out of bounds for each of them. -/
theorem artifact_name_short (choice : String) :
    checksumFromName (artifact_name choice) = none := by
  unfold artifact_name
  split
  · decide
  · split <;> decide

/-- A cache hit returns the cached bytes and leaves the world unchanged,
whatever the network would deliver. -/
theorem fetchStep_hit (shaHex nm : String) (network : Option Bytes) (w : World)
    (content : Bytes)
    (h : lookupFile w.cache (get_cached_file_path nm shaHex) = some content) :
    fetchStep shaHex nm network w = (.ok content, w) := by
  simp [fetchStep, h]

/-- On a cache miss with the network unavailable, the fetch fails and the
world is unchanged. -/
theorem fetchStep_miss_nonet (shaHex nm : String) (w : World)
    (h : lookupFile w.cache (get_cached_file_path nm shaHex) = none) :
    fetchStep shaHex nm none w = (.error .networkError, w) := by
  simp [fetchStep, h]

/-- On a cache miss, a body whose digest does not match fails the fetch with
the integrity error and leaves the world unchanged. -/
theorem fetchStep_miss_bad (shaHex nm : String) (body : Bytes) (w : World)
    (h : lookupFile w.cache (get_cached_file_path nm shaHex) = none)
    (hbad : toHexString (sha256 body) ≠ shaHex) :
    fetchStep shaHex nm (some body) w = (.error .integrityError, w) := by
  simp [fetchStep, h, download_file, hbad]

/-- On a cache miss, a body whose digest matches is returned and written to
the cache under the derived key. -/
theorem fetchStep_miss_good (shaHex nm : String) (body : Bytes) (w : World)
    (h : lookupFile w.cache (get_cached_file_path nm shaHex) = none)
    (hgood : toHexString (sha256 body) = shaHex) :
    fetchStep shaHex nm (some body) w =
      (.ok body,
       { w with cache := (get_cached_file_path nm shaHex, body) :: w.cache }) := by
  simp [fetchStep, h, download_file, hgood]

/-- Exhaustive case split on the outcome of a fetch: an error leaving the
world unchanged, a cache hit leaving the world unchanged, or a verified
download that appends a cache entry. -/
theorem fetchStep_cases (shaHex nm : String) (network : Option Bytes) (w : World) :
    (∃ e, fetchStep shaHex nm network w = (.error e, w)) ∨
    (∃ content, fetchStep shaHex nm network w = (.ok content, w) ∧
        lookupFile w.cache (get_cached_file_path nm shaHex) = some content) ∨
    (∃ body, network = some body ∧
        fetchStep shaHex nm network w =
          (.ok body,
           { w with cache := (get_cached_file_path nm shaHex, body) :: w.cache })) := by
  cases hl : lookupFile w.cache (get_cached_file_path nm shaHex) with
  | some c => exact .inr (.inl ⟨c, fetchStep_hit _ _ _ _ _ hl, rfl⟩)
  | none =>
      cases network with
      | none => exact .inl ⟨_, fetchStep_miss_nonet _ _ _ hl⟩
      | some body =>
          by_cases hg : toHexString (sha256 body) = shaHex
          · exact .inr (.inr ⟨body, rfl, fetchStep_miss_good _ _ _ _ hl hg⟩)
          · exact .inl ⟨_, fetchStep_miss_bad _ _ _ _ hl hg⟩

/-- Filtering out a name that occurs nowhere in a listing leaves it intact. -/
theorem filter_name_ne (l : List Entry) (nm : String)
    (h : nm ∉ l.map Entry.name) :
    l.filter (fun e => e.name != nm) = l := by
  induction l with
  | nil => rfl
  | cons a t ih =>
      simp only [List.map_cons, List.mem_cons, not_or] at h
      rw [List.filter_cons_of_pos, ih h.2]
      simp only [bne_iff_ne, ne_eq]
      exact fun hh => h.1 hh.symm

/-- A name absent from a listing differs from every entry's name. -/
theorem names_ne_of_not_mem (rest : List Entry) (nm : String)
    (h : nm ∉ rest.map Entry.name) :
    ∀ a ∈ rest, ¬ Entry.name a = nm := by
  intro a ha hcontra
  exact h (hcontra ▸ List.mem_map_of_mem Entry.name ha)

/-- `remove_dir_contents`, walked over a directory listing with pairwise
distinct entry names (as any real directory has), deletes every entry:
files via `remove_file`, subdirectories via `remove_dir_all`. -/
theorem remove_dir_contents_clears (entries : List Entry)
    (h : (entries.map Entry.name).Nodup) :
    remove_dir_contents entries entries = .ok [] := by
  induction entries with
  | nil => rfl
  | cons e rest ih =>
      rw [List.map_cons, List.nodup_cons] at h
      obtain ⟨hni, hrest⟩ := h
      have hni' : e.name ∉ rest.map Entry.name := hni
      have hstep :
          (if e.isDir then remove_dir_all (e :: rest) e.name
           else remove_file (e :: rest) e.name) = .ok rest := by
        cases e with
        | file nm data =>
            have hni2 : nm ∉ rest.map Entry.name := hni'
            simp [remove_file, remove_dir_all, Entry.isDir, Entry.name,
                  List.find?_cons, List.filter_cons, filter_name_ne rest nm hni2]
            exact names_ne_of_not_mem rest nm hni2
        | dir nm children =>
            have hni2 : nm ∉ rest.map Entry.name := hni'
            simp [remove_file, remove_dir_all, Entry.isDir, Entry.name,
                  List.find?_cons, List.filter_cons, filter_name_ne rest nm hni2]
            exact names_ne_of_not_mem rest nm hni2
      unfold remove_dir_contents
      rw [hstep]
      exact ih hrest

/-- A fetch failure propagates out of the pipeline with the world as the
fetch left it. -/
theorem run_fetch_error (choice shaHex : String) (env : Env)
    (network : Option Bytes) (parse : Bytes → Option Archive) (w w' : World)
    (e : Err)
    (h : fetchStep shaHex (artifact_name choice) network w = (.error e, w')) :
    runFromChecksum choice shaHex env network parse w = (.error e, w') := by
  simp only [runFromChecksum, h]

/-- When the fetch succeeds but destination resolution fails, the pipeline
stops with that error; by then the temporary archive file has been written
into the working directory, and the destination is untouched. -/
theorem run_profile_error (choice shaHex : String) (env : Env)
    (network : Option Bytes) (parse : Bytes → Option Archive) (w w1 : World)
    (content : Bytes) (e : Err)
    (hf : fetchStep shaHex (artifact_name choice) network w = (.ok content, w1))
    (hp : profileDir choice env = .error e) :
    runFromChecksum choice shaHex env network parse w =
      (.error e, { w1 with cwd := setFile w1.cwd (artifact_name choice) content }) := by
  simp only [runFromChecksum, hf, hp]

/-- A fully successful pipeline run: a cache-hit fetch, a resolved profile
directory, a clean clear (or creation) of the destination, and an extraction
that leaves exactly the archive's entries in the destination; the temporary
file is removed again from the working directory. -/
theorem run_ok_extract (choice shaHex : String) (env : Env)
    (network : Option Bytes) (parse : Bytes → Option Archive) (w : World)
    (content : Bytes) (p : String) (archive : Archive)
    (hf : fetchStep shaHex (artifact_name choice) network w = (.ok content, w))
    (hp : profileDir choice env = .ok p)
    (hnodup : (w.dest.map Entry.name).Nodup)
    (hparse : parse content = some archive) :
    runFromChecksum choice shaHex env network parse w =
      (.ok (),
       { cache := w.cache,
         cwd := (setFile w.cwd (artifact_name choice) content).filter
                  (fun q => q.1 != artifact_name choice),
         destExists := true,
         dest := archive.map (fun q => Entry.file q.1 q.2) }) := by
  have hclear :
      (if ({ w with cwd := setFile w.cwd (artifact_name choice) content } : World).destExists
       then remove_dir_contents w.dest w.dest else .ok ([] : List Entry)) = .ok [] := by
    by_cases hd : w.destExists
    · simp [hd, remove_dir_contents_clears w.dest hnodup]
    · simp [hd]
  simp only [runFromChecksum, hf, hp] at *
  simp only [hclear, hparse, extractArchive, List.nil_append]

/-- Whenever the expected asset is found in the release, the checksum slice
panics (the artifact name is shorter than 64 bytes) and the run dies there,
with the world untouched. -/
theorem main_asset_panics (r : Release) (choice : String) (env : Env)
    (network : Option Bytes) (parse : Bytes → Option Archive) (w : World)
    (asset : Asset)
    (h : findAsset r (artifact_name choice) = some asset) :
    mainModel r choice env network parse w = (.error .slicePanic, w) := by
  have h' : r.assets.find? (fun a => a.name == artifact_name choice) = some asset := h
  have hbeq := List.find?_some h'
  have hname : asset.name = artifact_name choice := by simpa using hbeq
  simp only [mainModel, h, hname, artifact_name_short choice]

/-- Claim C1: the spec asserts that for every release containing one of the
three expected asset names, computing the expected checksum as the 64-byte
name slice is well-defined so that the pipeline proceeds to the cache
lookup. The code refutes this: each fixed artifact name is 22 to 27 bytes
long, so `&asset.name[..64]` is out of bounds and the program panics before
any cache lookup whenever the expected asset is present. -/
theorem checksum_slice_panics :
    checksumFromName "updated-pack-modrinth.zip" = none ∧
    checksumFromName "updated-pack-curseforge.zip" = none ∧
    checksumFromName "updated-pack-prism.zip" = none ∧
    (∀ choice, checksumFromName (artifact_name choice) = none) ∧
    (∀ r choice env network parse w asset,
        findAsset r (artifact_name choice) = some asset →
        mainModel r choice env network parse w = (.error .slicePanic, w)) :=
  ⟨by decide, by decide, by decide, artifact_name_short,
   fun r choice env network parse w asset h =>
     main_asset_panics r choice env network parse w asset h⟩

/-- Closed instance of the C1 theorem: a release carrying the modrinth
asset, choice "1" — the run panics at the slice. -/
theorem checksum_slice_panics_witness :
    mainModel ⟨[⟨"updated-pack-modrinth.zip", "u", 1⟩]⟩ "1" (fun _ => none) none
        (fun _ => none) ⟨[], [], false, []⟩ =
      (.error .slicePanic, ⟨[], [], false, []⟩) :=
  checksum_slice_panics.2.2.2.2 ⟨[⟨"updated-pack-modrinth.zip", "u", 1⟩]⟩ "1"
    (fun _ => none) none (fun _ => none) ⟨[], [], false, []⟩
    ⟨"updated-pack-modrinth.zip", "u", 1⟩ (by decide)

/-- Claim C2: the download step succeeds and returns exactly the downloaded
bytes precisely when the lowercase hexadecimal SHA-256 digest of the full
content equals the expected checksum string, and fails with the integrity
error exactly when the digest differs. -/
theorem download_file_verifies (body : Bytes) (shaHex : String) :
    (download_file body shaHex = .ok body ↔ toHexString (sha256 body) = shaHex) ∧
    (download_file body shaHex = .error .integrityError ↔
        toHexString (sha256 body) ≠ shaHex) ∧
    (∀ out, download_file body shaHex = .ok out → out = body) := by
  unfold download_file
  by_cases hh : toHexString (sha256 body) = shaHex <;> simp [hh]

/-- Closed instance of the C2 theorem: the empty body against the real
SHA-256 digest of the empty message succeeds; a one-byte body against that
same checksum fails with the integrity error. -/
theorem download_file_verifies_witness :
    download_file []
        "e3b0c44298fc1c149afbf4c8996fb92427ae41e4649b934ca495991b7852b855" =
      .ok [] ∧
    download_file [0]
        "e3b0c44298fc1c149afbf4c8996fb92427ae41e4649b934ca495991b7852b855" =
      .error .integrityError :=
  ⟨(download_file_verifies [] _).1.mpr (by decide),
   (download_file_verifies [0] _).2.1.mpr (by decide)⟩

/-- Claim C3: on a cache miss, content whose digest does not match the
expected checksum fails the run with the integrity error and leaves the
world exactly as it was: no cache entry is written, no temporary file is
created, and the install steps are never reached. -/
theorem integrity_mismatch_aborts (choice shaHex : String) (body : Bytes)
    (env : Env) (parse : Bytes → Option Archive) (w : World)
    (hmiss : lookupFile w.cache
        (get_cached_file_path (artifact_name choice) shaHex) = none)
    (hbad : toHexString (sha256 body) ≠ shaHex) :
    runFromChecksum choice shaHex env (some body) parse w =
      (.error .integrityError, w) :=
  run_fetch_error choice shaHex env (some body) parse w w .integrityError
    (fetchStep_miss_bad shaHex (artifact_name choice) body w hmiss hbad)

/-- Closed instance of the C3 theorem: an empty cache and a body whose
digest is not "deadbeef" — the run fails and the world is unchanged. -/
theorem integrity_mismatch_aborts_witness :
    runFromChecksum "1" "deadbeef" (fun _ => none) (some [0]) (fun _ => none)
        ⟨[], [], false, []⟩ =
      (.error .integrityError, ⟨[], [], false, []⟩) :=
  integrity_mismatch_aborts "1" "deadbeef" [0] (fun _ => none) (fun _ => none)
    ⟨[], [], false, []⟩ (by rfl) (by decide)

/-- Claim C4: when a cache entry exists under the derived key
`<checksum>-<name>`, the fetch returns its bytes directly with the world
unchanged, for every network state including a disconnected one, and with
no digest re-verification (the digest of the cached bytes is unconstrained);
consequently a second fetch for the same checksum after any successful fetch
returns the identical bytes even with the network unavailable. -/
theorem cache_hit_trusted :
    (∀ shaHex nm network w content,
        lookupFile w.cache (get_cached_file_path nm shaHex) = some content →
        fetchStep shaHex nm network w = (.ok content, w)) ∧
    (∀ shaHex nm network w content w' network2,
        fetchStep shaHex nm network w = (.ok content, w') →
        fetchStep shaHex nm network2 w' = (.ok content, w')) := by
  constructor
  · exact fun shaHex nm network w content h =>
      fetchStep_hit shaHex nm network w content h
  · intro shaHex nm network w content w' network2 h
    rcases fetchStep_cases shaHex nm network w with
      ⟨e, he⟩ | ⟨c, hc, hl⟩ | ⟨body, hb, hdl⟩
    · rw [he] at h
      simp at h
    · rw [hc] at h
      simp only [Prod.mk.injEq, Except.ok.injEq] at h
      obtain ⟨h1, h2⟩ := h
      subst h1
      subst h2
      exact fetchStep_hit _ _ _ _ _ hl
    · rw [hdl] at h
      simp only [Prod.mk.injEq, Except.ok.injEq] at h
      obtain ⟨h1, h2⟩ := h
      subst h1
      subst h2
      exact fetchStep_hit _ _ _ _ _ (by simp [lookupFile])

/-- Closed instance of the C4 theorem: a cache holding bytes under key
"h-n" is returned unchanged with the network disconnected. -/
theorem cache_hit_trusted_witness :
    fetchStep "h" "n" none ⟨[("h-n", [1, 2])], [], false, []⟩ =
      (.ok [1, 2], ⟨[("h-n", [1, 2])], [], false, []⟩) :=
  cache_hit_trusted.1 "h" "n" none ⟨[("h-n", [1, 2])], [], false, []⟩ [1, 2]
    (by decide)

/-- Claim C5: asset selection maps choice "1" to the modrinth name, "2" to
the curseforge name and any other input to the prism fallback; the selected
asset is the release asset whose name equals the expected string exactly,
and on a release holding both the modrinth and curseforge assets, choice
"2" selects the curseforge asset. -/
theorem asset_selection_mapping :
    artifact_name "1" = "updated-pack-modrinth.zip" ∧
    artifact_name "2" = "updated-pack-curseforge.zip" ∧
    (∀ choice, choice ≠ "1" → choice ≠ "2" →
        artifact_name choice = "updated-pack-prism.zip") ∧
    (∀ r nm a, findAsset r nm = some a → a.name = nm) ∧
    findAsset ⟨[⟨"updated-pack-modrinth.zip", "m", 1⟩,
                ⟨"updated-pack-curseforge.zip", "c", 2⟩]⟩ (artifact_name "2") =
      some ⟨"updated-pack-curseforge.zip", "c", 2⟩ := by
  refine ⟨by decide, by decide, ?_, ?_, by decide⟩
  · intro choice h1 h2
    simp [artifact_name, h1, h2]
  · intro r nm a h
    have h' : r.assets.find? (fun x => x.name == nm) = some a := h
    have := List.find?_some h'
    simpa using this

/-- Closed instance of the C5 theorem: the unrecognized choice "9" falls
back to the prism artifact name. -/
theorem asset_selection_mapping_witness :
    artifact_name "9" = "updated-pack-prism.zip" :=
  asset_selection_mapping.2.2.1 "9" (by decide) (by decide)

/-- Claim C6: for each valid launcher choice the resolved install directory
is the choice-specific environment-derived base joined with the fixed pack
subdirectory "Originalife Season 4", and an unset required environment
variable fails that branch with the environment error naming the variable. -/
theorem destination_resolution (env : Env) :
    (∀ a, env "APPDATA" = some a →
        resolveTarget "1" env =
          .ok ((a ++ "\\ModrinthApp\\profiles") ++ "\\Originalife Season 4")) ∧
    (∀ hd hp, env "HOMEDRIVE" = some hd → env "HOMEPATH" = some hp →
        resolveTarget "2" env =
          .ok ((hd ++ hp ++ "\\curseforge\\minecraft\\Instances") ++
            "\\Originalife Season 4")) ∧
    (∀ a, env "APPDATA" = some a →
        resolveTarget "3" env =
          .ok ((a ++ "\\PrismLauncher\\instances") ++ "\\Originalife Season 4")) ∧
    (env "APPDATA" = none →
        resolveTarget "1" env = .error (.environmentError "APPDATA")) ∧
    (env "HOMEDRIVE" = none →
        resolveTarget "2" env = .error (.environmentError "HOMEDRIVE")) ∧
    (∀ hd, env "HOMEDRIVE" = some hd → env "HOMEPATH" = none →
        resolveTarget "2" env = .error (.environmentError "HOMEPATH")) ∧
    (env "APPDATA" = none →
        resolveTarget "3" env = .error (.environmentError "APPDATA")) := by
  refine ⟨?_, ?_, ?_, ?_, ?_, ?_, ?_⟩ <;> intros <;>
    simp_all [resolveTarget, profileDir]

/-- Closed instance of the C6 theorem: with APPDATA set to "A", choice "1"
resolves to the modrinth profile base joined with the pack subdirectory. -/
theorem destination_resolution_witness :
    resolveTarget "1" envFull =
      .ok (("A" ++ "\\ModrinthApp\\profiles") ++ "\\Originalife Season 4") :=
  (destination_resolution envFull).1 "A" (by decide)

/-- Claim C7: an unrecognized launcher choice (anything other than "1", "2"
or "3") makes destination resolution fail with the invalid-choice error,
the run then ends in an error, and the destination instance directory is
neither created, cleared nor extracted into. -/
theorem invalid_choice_terminal (choice shaHex : String) (env : Env)
    (network : Option Bytes) (parse : Bytes → Option Archive) (w : World)
    (h1 : choice ≠ "1") (h2 : choice ≠ "2") (h3 : choice ≠ "3") :
    profileDir choice env = .error .invalidChoiceError ∧
    (∃ e, (runFromChecksum choice shaHex env network parse w).1 = .error e) ∧
    ((runFromChecksum choice shaHex env network parse w).2).destExists =
      w.destExists ∧
    ((runFromChecksum choice shaHex env network parse w).2).dest = w.dest := by
  have hp : profileDir choice env = .error .invalidChoiceError := by
    simp [profileDir, h1, h2, h3]
  refine ⟨hp, ?_⟩
  rcases fetchStep_cases shaHex (artifact_name choice) network w with
    ⟨e, he⟩ | ⟨c, hc, hl⟩ | ⟨body, hb, hdl⟩
  · rw [run_fetch_error choice shaHex env network parse w w e he]
    exact ⟨⟨e, rfl⟩, rfl, rfl⟩
  · rw [run_profile_error choice shaHex env network parse w w c
        .invalidChoiceError hc hp]
    exact ⟨⟨.invalidChoiceError, rfl⟩, rfl, rfl⟩
  · rw [run_profile_error choice shaHex env network parse w _ body
        .invalidChoiceError hdl hp]
    exact ⟨⟨.invalidChoiceError, rfl⟩, rfl, rfl⟩

/-- Closed instance of the C7 theorem at the unrecognized choice "9". -/
theorem invalid_choice_terminal_witness :
    profileDir "9" (fun _ => none) = .error .invalidChoiceError ∧
    (∃ e, (runFromChecksum "9" "s" (fun _ => none) none (fun _ => none)
        ⟨[], [], false, []⟩).1 = .error e) ∧
    ((runFromChecksum "9" "s" (fun _ => none) none (fun _ => none)
        ⟨[], [], false, []⟩).2).destExists = false ∧
    ((runFromChecksum "9" "s" (fun _ => none) none (fun _ => none)
        ⟨[], [], false, []⟩).2).dest = [] :=
  invalid_choice_terminal "9" "s" (fun _ => none) none (fun _ => none)
    ⟨[], [], false, []⟩ (by decide) (by decide) (by decide)

/-- Claim C8: when no asset of the release carries the expected artifact
name, the run prints a message and ends as the success outcome `Ok(())` —
not a crash, not a non-zero failure — with no download, no cache write and
no filesystem modification. -/
theorem missing_asset_graceful (r : Release) (choice : String) (env : Env)
    (network : Option Bytes) (parse : Bytes → Option Archive) (w : World)
    (h : ∀ a ∈ r.assets, a.name ≠ artifact_name choice) :
    mainModel r choice env network parse w = (.ok (), w) := by
  have hfind : findAsset r (artifact_name choice) = none := by
    have hn : r.assets.find? (fun a => a.name == artifact_name choice) = none := by
      rw [List.find?_eq_none]
      intro a ha
      simpa using h a ha
    exact hn
  simp only [mainModel, hfind]

/-- Closed instance of the C8 theorem: a release with only an unrelated
asset, choice "1" — the run returns the success outcome with the world
unchanged. -/
theorem missing_asset_graceful_witness :
    mainModel ⟨[⟨"other.zip", "u", 1⟩]⟩ "1" (fun _ => none) none (fun _ => none)
        ⟨[], [], false, []⟩ = (.ok (), ⟨[], [], false, []⟩) :=
  missing_asset_graceful ⟨[⟨"other.zip", "u", 1⟩]⟩ "1" (fun _ => none) none
    (fun _ => none) ⟨[], [], false, []⟩ (by decide)

/-- Claim C9: clearing an existing destination deletes every entry of the
listing (subdirectories recursively, files by plain removal) while keeping
the directory; a missing destination is created; and a successful run
leaves the destination holding exactly the archive's extracted entries,
with no leftover original files. -/
theorem install_replaces_contents :
    (∀ entries, (entries.map Entry.name).Nodup →
        remove_dir_contents entries entries = .ok []) ∧
    (∀ choice shaHex env network parse w content p archive,
        fetchStep shaHex (artifact_name choice) network w = (.ok content, w) →
        profileDir choice env = .ok p →
        (w.dest.map Entry.name).Nodup →
        parse content = some archive →
        ∃ w', runFromChecksum choice shaHex env network parse w = (.ok (), w') ∧
          w'.destExists = true ∧
          w'.dest = archive.map (fun q => Entry.file q.1 q.2)) := by
  constructor
  · exact remove_dir_contents_clears
  · intro choice shaHex env network parse w content p archive hf hp hnodup hparse
    exact ⟨_, run_ok_extract choice shaHex env network parse w content p archive
      hf hp hnodup hparse, rfl, rfl⟩

/-- Closed instance of the C9 theorem: a cached archive installed over a
destination holding one old file leaves exactly the archive's entry. -/
theorem install_replaces_contents_witness :
    ∃ w', runFromChecksum "1" "h" envFull none
        (fun _ => some [("a.txt", [1])])
        ⟨[("h-updated-pack-modrinth.zip", [9])], [], true,
         [Entry.file "old.txt" [0]]⟩ =
      (.ok (), w') ∧ w'.destExists = true ∧
      w'.dest = [Entry.file "a.txt" [1]] :=
  install_replaces_contents.2 "1" "h" envFull none
    (fun _ => some [("a.txt", [1])])
    ⟨[("h-updated-pack-modrinth.zip", [9])], [], true, [Entry.file "old.txt" [0]]⟩
    [9] ("A" ++ "\\ModrinthApp\\profiles") [("a.txt", [1])]
    (by rfl) (by rfl) (by decide) (by rfl)

/-- Claim C10: with an unrecognized launcher choice, by the time destination
resolution fails with the invalid-choice error the prism-fallback asset has
already been fetched: on a cache miss with matching content a cache entry
has been newly written, and the temporary archive file named after the
asset has been written into the working directory and is left behind, while
the destination stays untouched. -/
theorem invalid_choice_side_effects (choice shaHex : String) (body : Bytes)
    (env : Env) (parse : Bytes → Option Archive) (w : World)
    (h1 : choice ≠ "1") (h2 : choice ≠ "2") (h3 : choice ≠ "3")
    (hmiss : lookupFile w.cache
        (get_cached_file_path "updated-pack-prism.zip" shaHex) = none)
    (hgood : toHexString (sha256 body) = shaHex) :
    ∃ w', runFromChecksum choice shaHex env (some body) parse w =
        (.error .invalidChoiceError, w') ∧
      lookupFile w'.cache
        (get_cached_file_path "updated-pack-prism.zip" shaHex) = some body ∧
      lookupFile w'.cwd "updated-pack-prism.zip" = some body ∧
      w'.destExists = w.destExists ∧ w'.dest = w.dest := by
  have hnm : artifact_name choice = "updated-pack-prism.zip" := by
    simp [artifact_name, h1, h2]
  have hp : profileDir choice env = .error .invalidChoiceError := by
    simp [profileDir, h1, h2, h3]
  have hf := fetchStep_miss_good shaHex (artifact_name choice) body w
    (by rw [hnm]; exact hmiss) hgood
  refine ⟨_, run_profile_error choice shaHex env (some body) parse w _ body
    .invalidChoiceError hf hp, ?_, ?_, rfl, rfl⟩
  · rw [hnm]
    simp [lookupFile]
  · rw [hnm]
    simp [lookupFile, setFile]

/-- Closed instance of the C10 theorem: choice "9", empty cache, network
delivering the empty body whose digest matches — the invalid-choice failure
leaves a new cache entry and the temporary file behind. -/
theorem invalid_choice_side_effects_witness :
    ∃ w', runFromChecksum "9"
        "e3b0c44298fc1c149afbf4c8996fb92427ae41e4649b934ca495991b7852b855"
        (fun _ => none) (some []) (fun _ => none) ⟨[], [], false, []⟩ =
        (.error .invalidChoiceError, w') ∧
      lookupFile w'.cache
        (get_cached_file_path "updated-pack-prism.zip"
          "e3b0c44298fc1c149afbf4c8996fb92427ae41e4649b934ca495991b7852b855") =
        some [] ∧
      lookupFile w'.cwd "updated-pack-prism.zip" = some [] ∧
      w'.destExists = false ∧ w'.dest = [] :=
  invalid_choice_side_effects "9"
    "e3b0c44298fc1c149afbf4c8996fb92427ae41e4649b934ca495991b7852b855" []
    (fun _ => none) (fun _ => none) ⟨[], [], false, []⟩
    (by decide) (by decide) (by decide) (by decide) (by decide)
